import Mathlib

/- Shallow embedding of the subscription and account logic of
   src/models/user.js (pagetty). Timestamps are epoch milliseconds,
   modelled as Nat. External collaborator calls (feed parsing, storage,
   crawling, notification) are modelled by environment records that fix
   the outcome each call would produce, in program order; the embedded
   workflow functions then compute the observable outcome (returned
   error, side effects attempted, notifications fired). -/

namespace Pagetty

/-- JavaScript Date value, modelled by its epoch-millisecond value. -/
structure JsDate where
  millis : Nat
deriving Repr, DecidableEq

/-- Date.prototype.getTime: the epoch-millisecond value. -/
def JsDate.getTime (d : JsDate) : Nat := d.millis

/-- A channel item as stored: the created field is a Date. -/
structure Item where
  created : JsDate
deriving Repr, DecidableEq

/-- An item as it appears in a ChannelUpdate payload: created has been
converted to an epoch value by getTime (user.js line 186). -/
structure TransportItem where
  created : Nat
deriving Repr, DecidableEq

/-- Channel record, with the fields user.js reads. items_added is none
when the channel has never been crawled. -/
structure Channel where
  id : Nat
  type : String
  url : String
  domain : String
  title : String
  items : List Item
  items_added : Option JsDate
deriving Repr, DecidableEq

/-- One entry of the getChannelUpdates result (user.js line 189). -/
structure ChannelUpdate where
  id : Nat
  items_added : Nat
  items : List TransportItem
deriving Repr, DecidableEq

/-- User document fields defined by userSchema (user.js lines 11-23).
The Mixed subscriptions map is modelled by its list of channel-id keys. -/
structure UserDoc where
  uid : String
  mail : String
  pass : Option String
  subscriptions : List Nat
  created : Nat
  high : Nat
  low : Nat
  verification : Option String
  verified : Bool
deriving Repr, DecidableEq

/-- Lookup in the client watermark map (a JS object keyed by channel id,
modelled as an association list; JS object keys are unique, so first
match is the match). -/
def lookupId (st : List (Nat × Nat)) (i : Nat) : Option Nat :=
  match st with
  | [] => none
  | (k, v) :: rest => if k = i then some v else lookupId rest i

/-- Server-side freshness of a channel (user.js line 182):
items_added.getTime() when present, 0 when never crawled. -/
def serverTime (c : Channel) : Nat :=
  (c.items_added.map JsDate.getTime).getD 0

/-- Conversion of stored items to transport items: each created Date is
replaced by its epoch value (user.js lines 185-187). -/
def transportItems (its : List Item) : List TransportItem :=
  its.map (fun it => { created := it.created.getTime })

/-- userSchema.methods.getChannelUpdates (user.js lines 168-199).
state is the client watermark map; none models an absent argument.
The channel collection db is queried with the id-in-keys filter; the
method never consults the subscriptions of the user. In the included
branch serverTime exceeds a Nat watermark, hence is positive, so
items_added is some date whose getTime equals serverTime, matching the
items_added.getTime() the source pushes there. -/
def getChannelUpdates (db : List Channel) (state : Option (List (Nat × Nat))) :
    List ChannelUpdate :=
  match state with
  | none => []
  | some st =>
    let ids := st.map Prod.fst
    let results := db.filter (fun c => decide (c.id ∈ ids))
    results.filterMap (fun c =>
      match lookupId st c.id with
      | some w =>
        if w < serverTime c then
          some { id := c.id, items_added := serverTime c,
                 items := transportItems c.items }
        else none
      | none => none)

lemma lookupId_mem_keys {st : List (Nat × Nat)} {i w : Nat}
    (h : lookupId st i = some w) : i ∈ st.map Prod.fst := by
  induction st with
  | nil => simp [lookupId] at h
  | cons p rest ih =>
    rw [lookupId] at h
    by_cases hk : p.1 = i
    · simp [hk]
    · simp [hk] at h
      simp [ih h]

/-- Characterisation of membership in the getChannelUpdates result. -/
lemma mem_getChannelUpdates {db : List Channel} {st : List (Nat × Nat)}
    {e : ChannelUpdate} :
    e ∈ getChannelUpdates db (some st) ↔
      ∃ c, c ∈ db ∧ ∃ w, lookupId st c.id = some w ∧ w < serverTime c ∧
        e = { id := c.id, items_added := serverTime c,
              items := transportItems c.items } := by
  unfold getChannelUpdates
  simp only [List.mem_filterMap, List.mem_filter, decide_eq_true_eq]
  constructor
  · rintro ⟨c, ⟨hcdb, _hkeys⟩, hfn⟩
    rcases hw : lookupId st c.id with _ | w
    · rw [hw] at hfn; simp at hfn
    · rw [hw] at hfn
      by_cases hlt : w < serverTime c
      · simp [hlt] at hfn
        exact ⟨c, hcdb, w, hw, hlt, hfn.symm⟩
      · simp [hlt] at hfn
  · rintro ⟨c, hcdb, w, hw, hlt, he⟩
    refine ⟨c, ⟨hcdb, lookupId_mem_keys hw⟩, ?_⟩
    rw [hw]
    simp [hlt, he]

instance {ε α : Type} [DecidableEq ε] [DecidableEq α] :
    DecidableEq (Except ε α) := fun x y =>
  match x, y with
  | .error a, .error b => decidable_of_iff (a = b) (by simp)
  | .ok a, .ok b => decidable_of_iff (a = b) (by simp)
  | .error _, .ok _ => isFalse (by simp)
  | .ok _, .error _ => isFalse (by simp)

/-- Feed metadata produced by app.parseFeed. -/
structure Feed where
  title : String
  type : String
  url : String
  domain : String
deriving Repr, DecidableEq

/-- Environment of one run of userSchema.methods.subscribe (user.js lines
28-83): the outcome each collaborator call would produce, in program
order. The error of the findOne channel lookup is not modelled because
the source ignores it entirely (only the doc is inspected, line 49). -/
structure SubscribeEnv where
  parseResult : Except String Feed
  existingChannel : Option Channel
  saveErr : Option String
  crawlErr : Option String
  createListErr : Bool
  incrErr : Bool
deriving Repr, DecidableEq

/-- Observable outcome of userSchema.methods.subscribe: the error handed
to the caller callback, which side-effecting steps were attempted, and
whether notify.onSubscribe fired. -/
structure SubscribeOutcome where
  err : Option String
  channelCreated : Bool
  crawlAttempted : Bool
  listCreateAttempted : Bool
  incrAttempted : Bool
  notified : Bool
deriving Repr, DecidableEq

/-- Tail of the subscribe workflow once a channel is in hand (user.js
lines 61-78). The crawl callback at line 63 takes no error argument, so
whatever error crawl produces is discarded and the series continues. -/
def subscribeAfterChannel (env : SubscribeEnv) (created : Bool) :
    SubscribeOutcome :=
  if env.createListErr then
    { err := some "Could not update user subscription.",
      channelCreated := created, crawlAttempted := true,
      listCreateAttempted := true, incrAttempted := false, notified := true }
  else if env.incrErr then
    { err := some "Could not increment subscribers.",
      channelCreated := created, crawlAttempted := true,
      listCreateAttempted := true, incrAttempted := true, notified := true }
  else
    { err := none, channelCreated := created, crawlAttempted := true,
      listCreateAttempted := true, incrAttempted := true, notified := true }

/-- userSchema.methods.subscribe (user.js lines 28-83). async.series runs
the steps sequentially, aborting on the first error; the completion
callback at lines 79-82 fires notify.onSubscribe unconditionally and then
hands err to the caller. -/
def subscribe (env : SubscribeEnv) : SubscribeOutcome :=
  match env.parseResult with
  | .error e =>
    { err := some e, channelCreated := false, crawlAttempted := false,
      listCreateAttempted := false, incrAttempted := false, notified := true }
  | .ok _ =>
    match env.existingChannel with
    | some _ => subscribeAfterChannel env false
    | none =>
      match env.saveErr with
      | some e =>
        { err := some e, channelCreated := false, crawlAttempted := false,
          listCreateAttempted := false, incrAttempted := false,
          notified := true }
      | none => subscribeAfterChannel env true

/-- Environment of one run of userSchema.methods.subscribeToChannel
(user.js lines 88-127). The count-step error is not modelled because the
source ignores it (only count is inspected, line 103). -/
structure SubscribeChEnv where
  findErr : Option String
  channel : Option Channel
  alreadyCount : Nat
  createErr : Bool
  incrErr : Bool
deriving Repr, DecidableEq

/-- Observable outcome of userSchema.methods.subscribeToChannel.
thrownTypeError records the synchronous TypeError raised by reading
channel.title on a null channel at line 113, in which case no callback
runs at all. -/
structure SubscribeChOutcome where
  err : Option String
  listCreateAttempted : Bool
  incrAttempted : Bool
  notified : Bool
  thrownTypeError : Bool
deriving Repr, DecidableEq

/-- userSchema.methods.subscribeToChannel (user.js lines 88-127). findById
on a missing channel yields a null channel with no error, so the series
continues and the create step dereferences null. As in subscribe, the
completion callback fires notify.onSubscribe unconditionally. -/
def subscribeToChannel (env : SubscribeChEnv) : SubscribeChOutcome :=
  match env.findErr with
  | some e =>
    { err := some e, listCreateAttempted := false, incrAttempted := false,
      notified := true, thrownTypeError := false }
  | none =>
    if env.alreadyCount ≠ 0 then
      { err := some "You are already subscribed to this site.",
        listCreateAttempted := false, incrAttempted := false,
        notified := true, thrownTypeError := false }
    else
      match env.channel with
      | none =>
        { err := none, listCreateAttempted := false, incrAttempted := false,
          notified := false, thrownTypeError := true }
      | some _ =>
        if env.createErr then
          { err := some "Could not subscribe to this site.",
            listCreateAttempted := true, incrAttempted := false,
            notified := true, thrownTypeError := false }
        else if env.incrErr then
          { err := some "Could not increment subscribers.",
            listCreateAttempted := true, incrAttempted := true,
            notified := true, thrownTypeError := false }
        else
          { err := none, listCreateAttempted := true, incrAttempted := true,
            notified := true, thrownTypeError := false }

/-- JavaScript runtime errors the embedded code can raise. -/
inductive JsError where
  | typeError
  | referenceError
deriving Repr, DecidableEq

/-- Environment of one run of userSchema.methods.unsubscribe (user.js
lines 132-143): whether a matching list record exists, the errors the
remove, findById and updateSubscriberCount calls would report (all three
are ignored by the source), and the loaded channel (none when since
deleted). -/
structure UnsubEnv where
  recordExists : Bool
  removeErr : Option String
  findErr : Option String
  channel : Option Channel
  decrErr : Option String
deriving Repr, DecidableEq

/-- Observable outcome of unsubscribe. completed is ok when the caller
callback was invoked (always with no error value, line 139), and error
when a synchronous JsError escaped instead. -/
structure UnsubOutcome where
  removeIssued : Bool
  decrementAttempted : Bool
  notified : Bool
  completed : Except JsError Unit
deriving Repr, DecidableEq

/-- userSchema.methods.unsubscribe (user.js lines 132-143). The remove is
issued first and its error ignored; findById follows and its error is
ignored; then channel.updateSubscriberCount is called on the loaded
channel, which on a null channel raises TypeError, so neither the
notification nor the caller callback runs in that case. -/
def unsubscribe (env : UnsubEnv) : UnsubOutcome :=
  match env.channel with
  | none =>
    { removeIssued := true, decrementAttempted := false, notified := false,
      completed := .error .typeError }
  | some _ =>
    { removeIssued := true, decrementAttempted := true, notified := true,
      completed := .ok () }

/-- userSchema.statics.hashPassword (user.js lines 302-304). The sha1
digest of the credential collaborator (external per the spec) is modelled
abstractly as a tagged concatenation of the same salted input; the
workflows only ever compare hash values for equality. -/
def hashPassword (id plainPass : String) : String :=
  "sha1:lwearGYw3p29" ++ id ++ plainPass

/-- The verification token computed in signup (user.js line 264),
modelled like hashPassword as a tagged concatenation. -/
def verificationToken (dateMillis : Nat) : String :=
  "sha1:qwmi39ds" ++ toString dateMillis

/-- The user document built by userSchema.statics.signup on the success
path (user.js line 265): hashed password, non-null verification token,
verified false. -/
def signupUser (id mail plainPass : String) (dateMillis : Nat) : UserDoc :=
  { uid := id, mail := mail, pass := some (hashPassword id plainPass),
    subscriptions := [], created := dateMillis, high := dateMillis,
    low := dateMillis, verification := some (verificationToken dateMillis),
    verified := false }

/-- The user document created by userSchema.statics.findOrCreate when no
user with the mail exists (user.js line 226): null password, null
verification, verified true. When a user exists it is returned unchanged,
so no new state arises from that branch. -/
def focNewUser (id mail : String) (dateMillis : Nat) : UserDoc :=
  { uid := id, mail := mail, pass := none, subscriptions := [],
    created := dateMillis, high := dateMillis, low := dateMillis,
    verification := none, verified := true }

/-- userSchema.methods.activate (user.js lines 204-213): sets verified to
true and saves; no other field is touched. -/
def activate (u : UserDoc) : UserDoc :=
  { u with verified := true }

/-- The invariant claimed for user verification state. -/
def verifiedInvariant (u : UserDoc) : Prop :=
  u.verified = true ↔ u.verification = none

instance (u : UserDoc) : Decidable (verifiedInvariant u) := by
  unfold verifiedInvariant; infer_instance

/-- User states reachable through signup, findOrCreate and activate. -/
inductive ReachableUser : UserDoc → Prop where
  | signup (id mail plainPass : String) (d : Nat) :
      ReachableUser (signupUser id mail plainPass d)
  | focNew (id mail : String) (d : Nat) : ReachableUser (focNewUser id mail d)
  | act {u : UserDoc} : ReachableUser u → ReachableUser (activate u)

/-- The single generic authentication failure message (user.js line 291). -/
def credentialMismatch : String := "Username or password does not match."

/-- userSchema.statics.authenticate (user.js lines 286-297). findOne with
the mail-and-verified filter is modelled as find? over the user
collection; a null user or a hash mismatch both yield the one generic
error message. -/
def authenticate (db : List UserDoc) (mail plainPass : String) :
    Except String UserDoc :=
  match db.find? (fun u => u.mail == mail && u.verified) with
  | none => .error credentialMismatch
  | some u =>
    if u.pass == some (hashPassword u.uid plainPass) then .ok u
    else .error credentialMismatch

/-- Events observable during the post-remove account-deletion cascade,
with the outcome of each decrement recorded. -/
inductive DeleteEv where
  | stateRemove
  | decr (channelId : Nat) (ok : Bool)
  | notifyDelete
deriving Repr, DecidableEq

/-- The operation performed by a cascade event, with decrement outcomes
erased. -/
inductive DeleteOp where
  | stateRemove
  | decr (channelId : Nat)
  | notifyDelete
deriving Repr, DecidableEq

/-- Projection of a cascade event to its operation. -/
def DeleteEv.toOp : DeleteEv → DeleteOp
  | .stateRemove => .stateRemove
  | .decr c _ => .decr c
  | .notifyDelete => .notifyDelete

/-- The post-remove cascade (user.js lines 333-356) as an event trace:
state cleanup, then one updateSubscriberCount call per subscribed channel
issued from a loop whose callback ignores errors (line 345), then the
account-deletion notification. An error from state.remove aborts the
async.series. channelIds are the ids of the channels loaded from the
subscriptions of the user; decrFails says which decrements would fail. -/
def deleteCascade (stateRemoveErr : Option String) (channelIds : List Nat)
    (decrFails : Nat → Bool) : List DeleteEv :=
  match stateRemoveErr with
  | some _ => [DeleteEv.stateRemove]
  | none =>
    DeleteEv.stateRemove ::
      (channelIds.map (fun c => DeleteEv.decr c (! decrFails c)) ++
        [DeleteEv.notifyDelete])

/-- Names in scope inside userSchema.statics.checkIfUnverified (user.js
lines 318-328): its parameters plus the variables of the enclosing attach
function. The name id is not among them. -/
def checkIfUnverifiedScope : List String :=
  ["user_id", "callback", "options", "app", "async", "check", "feedparser",
   "mongoose", "uri", "userSchema"]

/-- Evaluation of a variable reference in non-strict JS: a name not bound
in any enclosing scope raises ReferenceError. -/
def lookupName (scope : List String) (n : String) : Except JsError Unit :=
  if n ∈ scope then .ok () else .error .referenceError

/-- Observable outcome of checkIfUnverified: whether the findOne query
was issued, and either the thrown JsError or the message handed to the
callback (none for the success branch). -/
structure CheckOutcome where
  queryIssued : Bool
  result : Except JsError (Option String)
deriving Repr, DecidableEq

/-- userSchema.statics.checkIfUnverified (user.js lines 318-328).
Building the findOne filter evaluates the free variable id, so the
call raises before any query is issued; the branch after a successful
lookup is unreachable, as the theorem below establishes, and is modelled
by the not-found message of line 322. -/
def checkIfUnverified (user_id : String) : CheckOutcome :=
  match lookupName checkIfUnverifiedScope "id" with
  | .error e => { queryIssued := false, result := .error e }
  | .ok _ =>
    { queryIssued := true,
      result := .ok (some "User not found or already verified.") }

/-- Sample feed metadata used for concrete runs. -/
def feedSample : Feed :=
  { title := "Example", type := "rss", url := "http://example.com/feed",
    domain := "example.com" }

/-- Sample channel with one item and a crawl watermark of 5. -/
def chSample : Channel :=
  { id := 1, type := "rss", url := "http://example.com/feed",
    domain := "example.com", title := "Example",
    items := [{ created := { millis := 3 } }],
    items_added := some { millis := 5 } }

/-- Sample user subscribed to no channel at all. -/
def userNoSubs : UserDoc :=
  { uid := "u0", mail := "n@x.com", pass := none, subscriptions := [],
    created := 0, high := 0, low := 0, verification := none,
    verified := true }

/-- Subscribe run whose feed parse step fails. -/
def envParseFail : SubscribeEnv :=
  { parseResult := .error "Feed error", existingChannel := none,
    saveErr := none, crawlErr := none, createListErr := false,
    incrErr := false }

/-- Subscribe-to-channel run where the user already holds a subscription. -/
def envAlreadySubscribed : SubscribeChEnv :=
  { findErr := none, channel := some chSample, alreadyCount := 1,
    createErr := false, incrErr := false }

/-- Subscribe run where only the crawl step fails. -/
def envCrawlFail : SubscribeEnv :=
  { parseResult := .ok feedSample, existingChannel := some chSample,
    saveErr := none, crawlErr := some "Crawl failed",
    createListErr := false, incrErr := false }

/-- Subscribe run on a fresh channel whose list-creation step fails. -/
def envListFail : SubscribeEnv :=
  { parseResult := .ok feedSample, existingChannel := none, saveErr := none,
    crawlErr := none, createListErr := true, incrErr := false }

/-- Unsubscribe run where the channel has since been deleted. -/
def envChannelGone : UnsubEnv :=
  { recordExists := false, removeErr := none, findErr := none,
    channel := none, decrErr := none }

/-- Unsubscribe run with the channel present and a failing decrement. -/
def envChOk : UnsubEnv :=
  { recordExists := true, removeErr := none, findErr := none,
    channel := some chSample, decrErr := some "decr failed" }

/-- C1: the claim says notify.onSubscribe fires only when every step of
the workflow succeeded. In the source both subscribe workflows fire the
notification unconditionally in the series completion callback (user.js
lines 80 and 124): here a failed feed parse and an already-subscribed
rejection both return an error yet still notify. -/
theorem subscribe_notifies_despite_failure :
    ((subscribe envParseFail).err = some "Feed error"
      ∧ (subscribe envParseFail).notified = true)
    ∧ ((subscribeToChannel envAlreadySubscribed).err
          = some "You are already subscribed to this site."
      ∧ (subscribeToChannel envAlreadySubscribed).notified = true) :=
  ⟨⟨rfl, rfl⟩, rfl, rfl⟩

/-- C5 counterexample: with every step succeeding except the crawl, the
workflow neither aborts nor returns the crawl error; the remaining steps
all run and the caller sees success. -/
theorem subscribe_crawl_error_ignored :
    envCrawlFail.crawlErr = some "Crawl failed"
    ∧ (subscribe envCrawlFail).err = none
    ∧ (subscribe envCrawlFail).listCreateAttempted = true
    ∧ (subscribe envCrawlFail).incrAttempted = true :=
  ⟨rfl, rfl, rfl, rfl⟩

/-- C5 amended: failure of the feed parse, channel save, subscription
creation or counter increment aborts the remaining steps and returns the
first error; crawl errors are discarded by the source and never abort;
a channel created before a later failure is not rolled back. -/
theorem subscribe_first_error_wins (env : SubscribeEnv) :
    (∀ e, env.parseResult = .error e →
      (subscribe env).err = some e
      ∧ (subscribe env).crawlAttempted = false
      ∧ (subscribe env).listCreateAttempted = false
      ∧ (subscribe env).incrAttempted = false)
    ∧ (∀ e, (∃ f, env.parseResult = .ok f) → env.existingChannel = none →
        env.saveErr = some e →
      (subscribe env).err = some e
      ∧ (subscribe env).crawlAttempted = false
      ∧ (subscribe env).listCreateAttempted = false
      ∧ (subscribe env).incrAttempted = false)
    ∧ ((∃ f, env.parseResult = .ok f) →
        (env.existingChannel = none → env.saveErr = none) →
        env.createListErr = true →
      (subscribe env).err = some "Could not update user subscription."
      ∧ (subscribe env).incrAttempted = false)
    ∧ ((∃ f, env.parseResult = .ok f) →
        (env.existingChannel = none → env.saveErr = none) →
        env.createListErr = false → env.incrErr = true →
      (subscribe env).err = some "Could not increment subscribers.")
    ∧ ((∃ f, env.parseResult = .ok f) →
        (env.existingChannel = none → env.saveErr = none) →
        env.createListErr = false → env.incrErr = false →
      (subscribe env).err = none)
    ∧ (∀ ce, subscribe { env with crawlErr := ce } = subscribe env)
    ∧ ((∃ f, env.parseResult = .ok f) → env.existingChannel = none →
        env.saveErr = none → (subscribe env).channelCreated = true) := by
  rcases env with ⟨pr, exch, sv, cr, cl, ic⟩
  rcases pr with e0 | f0 <;> rcases exch with _ | ch0 <;>
    rcases sv with _ | se0 <;> rcases cl <;> rcases ic <;>
    simp [subscribe, subscribeAfterChannel]

/-- C5 witness: a concrete run on a fresh channel whose list-creation
step fails returns that error, skips the increment, and leaves the
created channel in place. -/
theorem subscribe_first_error_wins_witness :
    ((subscribe envListFail).err = some "Could not update user subscription."
      ∧ (subscribe envListFail).incrAttempted = false)
    ∧ (subscribe envListFail).channelCreated = true :=
  ⟨(subscribe_first_error_wins envListFail).2.2.1 ⟨feedSample, rfl⟩
      (fun _ => rfl) rfl,
    (subscribe_first_error_wins envListFail).2.2.2.2.2.2 ⟨feedSample, rfl⟩
      rfl rfl⟩

/-- C7: getChannelUpdates with an absent watermark map returns the empty
list at once, and with an empty map queries nothing and also returns the
empty list. -/
theorem getChannelUpdates_empty_state (db : List Channel) :
    getChannelUpdates db none = [] ∧ getChannelUpdates db (some []) = [] := by
  refine ⟨rfl, ?_⟩
  unfold getChannelUpdates
  simp

/-- C2 counterexample: for a user subscribed to nothing, a watermark
entry for channel 1 still makes getChannelUpdates report channel 1, so
the result can contain a channel the user is not subscribed to. -/
theorem getChannelUpdates_reports_unsubscribed_channel :
    userNoSubs.subscriptions = []
    ∧ ∃ e ∈ getChannelUpdates [chSample] (some [(1, 0)]),
        e.id ∉ userNoSubs.subscriptions := by decide

/-- C2 amended: getChannelUpdates considers exactly the channel ids
present in the watermark map, with no intersection against the
subscriptions of the user: every reported entry corresponds to a stored
channel whose id is a key of the map, and nothing restricts entries to
subscribed channels. -/
theorem getChannelUpdates_watermark_keys_only (db : List Channel)
    (st : List (Nat × Nat)) :
    ∀ e ∈ getChannelUpdates db (some st),
      e.id ∈ st.map Prod.fst ∧ ∃ ch, ch ∈ db ∧ ch.id = e.id := by
  intro e he
  rcases mem_getChannelUpdates.mp he with ⟨c, hc, w, hw, _, he2⟩
  subst he2
  exact ⟨lookupId_mem_keys hw, c, hc, rfl⟩

/-- C2 amended witness: the concrete entry reported for channel 1 has its
id among the watermark keys and belongs to a stored channel. -/
theorem getChannelUpdates_watermark_keys_only_witness :
    (⟨1, 5, [⟨3⟩]⟩ : ChannelUpdate).id
        ∈ ([(1, 0)] : List (Nat × Nat)).map Prod.fst
    ∧ ∃ ch, ch ∈ [chSample] ∧ ch.id = (⟨1, 5, [⟨3⟩]⟩ : ChannelUpdate).id :=
  getChannelUpdates_watermark_keys_only [chSample] [(1, 0)]
    ⟨1, 5, [⟨3⟩]⟩ (by decide)

/-- C3 counterexample: when the channel cannot be loaded the source
dereferences a null channel, so instead of completing without error the
call raises a TypeError, the caller callback never runs, and the
unsubscribe notification is skipped. -/
theorem unsubscribe_null_channel_throws :
    envChannelGone.channel = none
    ∧ (unsubscribe envChannelGone).completed = .error .typeError
    ∧ (unsubscribe envChannelGone).completed ≠ .ok ()
    ∧ (unsubscribe envChannelGone).notified = false
    ∧ (unsubscribe envChannelGone).decrementAttempted = false := by decide

/-- C3 amended: the removal of the subscription record is always issued
and the outcome ignores whether a record existed and every storage error;
when the channel loads the call completes with no error; but when the
channel cannot be loaded the decrement is skipped and a TypeError escapes
instead of a clean completion. -/
theorem unsubscribe_behaviour (env : UnsubEnv) :
    (unsubscribe env).removeIssued = true
    ∧ (∀ ch, env.channel = some ch →
        (unsubscribe env).completed = .ok ()
        ∧ (unsubscribe env).decrementAttempted = true
        ∧ (unsubscribe env).notified = true)
    ∧ (env.channel = none →
        (unsubscribe env).completed = .error .typeError
        ∧ (unsubscribe env).decrementAttempted = false)
    ∧ (∀ b e₁ e₂ e₃,
        unsubscribe { env with
                      recordExists := b
                      removeErr := e₁
                      findErr := e₂
                      decrErr := e₃ }
          = unsubscribe env) := by
  rcases env with ⟨b0, r0, f0, ch0, d0⟩
  cases ch0 <;> simp [unsubscribe]

/-- C3 witness: with the channel present, a concrete unsubscribe run
completes without error, decrements, and notifies, even though the
decrement call itself reported an error. -/
theorem unsubscribe_behaviour_witness :
    (unsubscribe envChOk).completed = .ok ()
    ∧ (unsubscribe envChOk).decrementAttempted = true
    ∧ (unsubscribe envChOk).notified = true :=
  (unsubscribe_behaviour envChOk).2.1 chSample rfl

/-- C4 counterexample: activating a signup-created user is reachable, yet
activate only sets verified and leaves the verification token in place,
so the claimed invariant fails for that state. -/
theorem activate_leaves_verification_set :
    ReachableUser (activate (signupUser "id1" "a@x.com" "secret1" 0))
    ∧ ¬ verifiedInvariant (activate (signupUser "id1" "a@x.com" "secret1" 0)) :=
  ⟨ReachableUser.act (ReachableUser.signup "id1" "a@x.com" "secret1" 0),
    by decide⟩

/-- C4 amended: the invariant relating verified and verification holds
for users as created by signup (false with a token) and by findOrCreate
(true with none), but activate sets verified to true while leaving the
verification token unchanged, so it does not clear it to null. -/
theorem verification_state_facts (id mail plainPass : String) (d : Nat)
    (u : UserDoc) :
    verifiedInvariant (signupUser id mail plainPass d)
    ∧ verifiedInvariant (focNewUser id mail d)
    ∧ (activate u).verified = true
    ∧ (activate u).verification = u.verification := by
  refine ⟨?_, ?_, rfl, rfl⟩
  · unfold verifiedInvariant signupUser
    simp
  · unfold verifiedInvariant focNewUser
    simp

/-- C6: a loaded channel with a watermark entry appears in the result
exactly when its server time strictly exceeds the watermark, and every
result entry carries the channel id, the server time as items_added, and
the items with created converted to epoch values. -/
theorem getChannelUpdates_dirty_iff (db : List Channel)
    (st : List (Nat × Nat)) (c : Channel) (w : Nat)
    (hc : c ∈ db) (hw : lookupId st c.id = some w) :
    (({ id := c.id, items_added := serverTime c,
        items := transportItems c.items } : ChannelUpdate)
          ∈ getChannelUpdates db (some st)
      ↔ w < serverTime c)
    ∧ ∀ e ∈ getChannelUpdates db (some st), ∃ ch, ch ∈ db
        ∧ e = { id := ch.id, items_added := serverTime ch,
                items := transportItems ch.items } := by
  constructor
  · constructor
    · intro hmem
      rcases mem_getChannelUpdates.mp hmem with ⟨c2, _, w2, hw2, hlt2, he⟩
      rw [ChannelUpdate.mk.injEq] at he
      obtain ⟨hid, hta, _⟩ := he
      rw [hid] at hw
      rw [hw] at hw2
      cases hw2
      rw [hta]
      exact hlt2
    · intro hlt
      exact mem_getChannelUpdates.mpr ⟨c, hc, w, hw, hlt, rfl⟩
  · intro e he
    rcases mem_getChannelUpdates.mp he with ⟨ch, hch, w2, _, _, heq⟩
    exact ⟨ch, hch, heq⟩

/-- C6 witness: for the sample channel with server time 5 and a watermark
of 4 the characterisation holds concretely. -/
theorem getChannelUpdates_dirty_iff_witness :
    (({ id := 1, items_added := 5, items := [⟨3⟩] } : ChannelUpdate)
          ∈ getChannelUpdates [chSample] (some [(1, 4)])
      ↔ 4 < 5)
    ∧ ∀ e ∈ getChannelUpdates [chSample] (some [(1, 4)]), ∃ ch,
        ch ∈ [chSample]
        ∧ e = { id := ch.id, items_added := serverTime ch,
                items := transportItems ch.items } :=
  getChannelUpdates_dirty_iff [chSample] [(1, 4)] chSample 4
    (by simp) (by rfl)

/-- Sample verified user with a stored password hash. -/
def userA : UserDoc :=
  { uid := "u1", mail := "a@x.com",
    pass := some (hashPassword "u1" "secret1"), subscriptions := [],
    created := 0, high := 0, low := 0, verification := none,
    verified := true }

/-- C8: authenticate yields a user only when that user is stored, has the
requested mail, is verified, and the stored hash equals the salted hash
of the supplied password; every failure, whether the user is missing,
unverified, or the password wrong, yields the one generic message. -/
theorem authenticate_only_match_generic_error (db : List UserDoc)
    (mail plainPass : String) :
    (∀ u, authenticate db mail plainPass = .ok u →
      u ∈ db ∧ u.mail = mail ∧ u.verified = true
        ∧ u.pass = some (hashPassword u.uid plainPass))
    ∧ (∀ msg, authenticate db mail plainPass = .error msg →
        msg = credentialMismatch) := by
  constructor
  · intro u h
    unfold authenticate at h
    rcases hfind : db.find? (fun v => v.mail == mail && v.verified)
      with _ | u0
    · rw [hfind] at h
      simp at h
    · rw [hfind] at h
      have hu0 := List.find?_some hfind
      have hmem := List.mem_of_find?_eq_some hfind
      simp only [Bool.and_eq_true, beq_iff_eq] at hu0
      by_cases hp : u0.pass == some (hashPassword u0.uid plainPass)
      · simp only [if_pos hp, Except.ok.injEq] at h
        subst h
        exact ⟨hmem, hu0.1, hu0.2, by simpa using hp⟩
      · simp [hp] at h
  · intro msg h
    unfold authenticate at h
    rcases hfind : db.find? (fun v => v.mail == mail && v.verified)
      with _ | u0
    · rw [hfind] at h
      simp only [Except.error.injEq] at h
      exact h.symm
    · rw [hfind] at h
      by_cases hp : u0.pass == some (hashPassword u0.uid plainPass)
      · simp [hp] at h
      · simp only [if_neg hp, Except.error.injEq] at h
        exact h.symm

/-- C8 witness: the sample verified user authenticates with the right
password and indeed satisfies the stated conditions. -/
theorem authenticate_only_match_generic_error_witness :
    userA ∈ [userA] ∧ userA.mail = "a@x.com" ∧ userA.verified = true
      ∧ userA.pass = some (hashPassword userA.uid "secret1") :=
  (authenticate_only_match_generic_error [userA] "a@x.com" "secret1").1
    userA (by rfl)

lemma deleteCascade_toOp (cs : List Nat) (f : Nat → Bool) :
    (deleteCascade none cs f).map DeleteEv.toOp
      = DeleteOp.stateRemove ::
          (cs.map DeleteOp.decr ++ [DeleteOp.notifyDelete]) := by
  simp [deleteCascade, DeleteEv.toOp, List.map_map, Function.comp]

/-- C9: the cascade performs state cleanup first, then one decrement per
subscribed channel, then the notification last; each decrement is issued
with its error ignored, so which decrements fail neither removes any
decrement from the trace nor changes which operations run. -/
theorem deleteCascade_order (cs : List Nat) (f g : Nat → Bool) :
    (deleteCascade none cs f).map DeleteEv.toOp
        = DeleteOp.stateRemove ::
            (cs.map DeleteOp.decr ++ [DeleteOp.notifyDelete])
    ∧ (∀ c, c ∈ cs → DeleteEv.decr c (! f c) ∈ deleteCascade none cs f)
    ∧ (deleteCascade none cs f).map DeleteEv.toOp
        = (deleteCascade none cs g).map DeleteEv.toOp := by
  refine ⟨deleteCascade_toOp cs f, ?_, ?_⟩
  · intro c hc
    simp only [deleteCascade, List.mem_cons, List.mem_append,
      List.mem_map, List.mem_singleton]
    exact Or.inr (Or.inl ⟨c, hc, rfl⟩)
  · exact (deleteCascade_toOp cs f).trans (deleteCascade_toOp cs g).symm

/-- C9 witness: with channels 1 and 2 and the decrement of channel 1
failing, both decrements still appear in the trace. -/
theorem deleteCascade_order_witness :
    DeleteEv.decr 1 false ∈ deleteCascade none [1, 2] (fun c => c == 1)
    ∧ DeleteEv.decr 2 true ∈ deleteCascade none [1, 2] (fun c => c == 1) :=
  ⟨(deleteCascade_order [1, 2] (fun c => c == 1) (fun c => c == 1)).2.1 1
      (by decide),
    (deleteCascade_order [1, 2] (fun c => c == 1) (fun c => c == 1)).2.1 2
      (by decide)⟩

/-- C10: checkIfUnverified references the unbound name id when building
its findOne filter, so every call raises a ReferenceError before any
query is issued and the operation can never succeed. -/
theorem checkIfUnverified_never_queries (user_id : String) :
    (checkIfUnverified user_id).queryIssued = false
    ∧ (checkIfUnverified user_id).result = .error .referenceError :=
  ⟨rfl, rfl⟩

end Pagetty
